import Mathlib

/-!
Verification development for the Outblog Shopify plugin
(repository `shopify-plugin`, route `app/routes/app._index.tsx`,
stores `memory.server` / `database.server`, cron route `api.cron`).

The TypeScript route actions and store methods are shallowly embedded as
computable Lean functions over `List Char` / `String` and a `Post` record
mirroring the `OutblogPost` table of the SQL migration.  JavaScript string
and regex operations are translated operation by operation; dates are
modelled as natural numbers.
-/

namespace Outblog

/-- Truthiness of a JS `string | null | undefined` value: `undefined`,
`null` and the empty string are falsy, every other string is truthy. -/
def truthyOpt : Option String → Bool
  | none => false
  | some s => s ≠ ""

/-- JS `String.prototype.toLowerCase`, restricted to ASCII case mapping
(`Char.toLower`); all inputs exercised by the claims are ASCII. -/
def jsToLower (s : String) : String :=
  String.mk (s.data.map Char.toLower)

/-- Whitespace test used for the JS regex class `\s` (space, tab, CR, LF;
the Unicode extras of `\s` do not occur in the inputs under study). -/
def isWs (c : Char) : Bool :=
  c = ' ' || c = '\t' || c = '\r' || c = '\n'

/-- Run-replacement scanner: rewrites every maximal run of characters
satisfying `p` to the single character `r`.  The `inRun` flag records
whether the previous character was part of such a run, so the definition
is structurally recursive (and hence kernel-evaluable). -/
def replaceRunsGo (p : Char → Bool) (r : Char) : Bool → List Char → List Char
  | _, [] => []
  | inRun, c :: rest =>
    if p c then
      (if inRun then [] else [r]) ++ replaceRunsGo p r true rest
    else
      c :: replaceRunsGo p r false rest

/-- Replace every maximal run of whitespace by a single hyphen:
JS `s.replace(/\s+/g, "-")`. -/
def replaceWsRuns (l : List Char) : List Char :=
  replaceRunsGo isWs '-' false l

/-- Sync-time slug derivation from a title (route `fetchBlogs`, line 147):
`post.title?.toLowerCase().replace(/\s+/g, "-")`. -/
def syncDeriveSlug (title : String) : String :=
  String.mk (replaceWsRuns (jsToLower title).data)

/-- Slug chosen by the sync loop: `post.slug || derived-from-title ||
"untitled"` with JS truthiness at each `||`. -/
def syncSlug (slug : Option String) (title : Option String) : String :=
  if truthyOpt slug then slug.getD "" else
  match title with
  | none => "untitled"
  | some t => if truthyOpt (some (syncDeriveSlug t)) then syncDeriveSlug t else "untitled"

/-- Lower-alphanumeric test for the JS regex class `[a-z0-9]`. -/
def isLowerAlnum (c : Char) : Bool :=
  ('a' ≤ c && c ≤ 'z') || ('0' ≤ c && c ≤ '9')

/-- Replace every maximal run of characters outside `[a-z0-9]` by a single
hyphen: JS `s.replace(/[^a-z0-9]+/g, "-")`. -/
def collapseNonAlnum (l : List Char) : List Char :=
  replaceRunsGo (fun c => !isLowerAlnum c) '-' false l

/-- JS `s.replace(/^-+|-+$/g, "")`: remove leading and trailing hyphen
runs. -/
def trimHyphens (l : List Char) : List Char :=
  ((l.dropWhile (fun c => c = '-')).reverse.dropWhile (fun c => c = '-')).reverse

/-- Article-handle derivation from a title (route `publishToShopify`,
line 404): `title?.toLowerCase().replace(/[^a-z0-9]+/g, "-")
.replace(/^-+|-+$/g, "")`. -/
def handleFromTitle (title : String) : String :=
  String.mk (trimHyphens (collapseNonAlnum (jsToLower title).data))

/-- Article handle chosen by `publishToShopify` (lines 402-405): the post
slug when truthy, else the derived handle when truthy, else `"untitled"`. -/
def articleHandle (slug : String) (title : String) : String :=
  if slug ≠ "" then slug
  else if handleFromTitle title ≠ "" then handleFromTitle title
  else "untitled"

/-! Front-matter stripping, `publishToShopify` lines 356-357 (and
`publishAllToShopify` lines 627-628):
`content.replace(/^---\s[\s\S]*?---\s*/m, "")`.
The regex has the multiline flag, so `^` anchors at the start of the
string and after every newline; `replace` removes the leftmost match.
A match is `---`, one whitespace character, a lazy (shortest) middle,
a closing `---`, then a greedy run of whitespace. -/

/-- Split at the earliest occurrence of `---`: returns the part before it
and the part after it (the lazy `[\s\S]*?` followed by the literal
closing `---`). -/
def findTripleDash : List Char → Option (List Char × List Char)
  | [] => none
  | '-' :: '-' :: '-' :: rest => some ([], rest)
  | c :: rest =>
    match findTripleDash rest with
    | some (b, a) => some (c :: b, a)
    | none => none

/-- Try to match the front-matter pattern at the current position (which
must be a line start); on success return the remainder of the string
after the match (the greedy trailing `\s*` consumed). -/
def matchFM (l : List Char) : Option (List Char) :=
  match l with
  | '-' :: '-' :: '-' :: c :: rest =>
    if isWs c then
      match findTripleDash rest with
      | some (_, after) => some (after.dropWhile isWs)
      | none => none
    else none
  | _ => none

/-- Scan for the first line start (character following a newline) where
the front-matter pattern matches, and remove that single match. -/
def stripAfterNl : List Char → List Char
  | [] => []
  | c :: rest =>
    if c = '\n' then
      match matchFM rest with
      | some rem => c :: rem
      | none => c :: stripAfterNl rest
    else
      c :: stripAfterNl rest

/-- The whole front-matter replacement: try position 0 first, then every
position following a newline, left to right; remove the first match
found (the regex is not global, so only one removal happens). -/
def stripFrontMatter (l : List Char) : List Char :=
  match matchFM l with
  | some rem => rem
  | none => stripAfterNl l

/-- Front-matter stripping on strings, as applied to `blogPost.content ||
""` in both publish paths. -/
def stripContent (content : Option String) : String :=
  String.mk (stripFrontMatter (content.getD "").data)

/-! Markdown-to-HTML conversion, `publishToShopify` lines 359-399.  Each
JS `String.replace` regex call is embedded as a scanner over `List Char`.
Global replaces are run by `scanReplace`, which walks the string left to
right and applies a step function at each position (leftmost,
non-overlapping matches, exactly like a global regex). -/

/-- One pass of a global regex replacement.  `step l` returns
`some (replacement, rest)` when the pattern matches at the head of `l`
(consuming at least one character), else `none`.  The scanner carries
fuel equal to the input length so that it is structurally recursive;
since every step consumes at least one character the fuel never runs
out on the strings being scanned. -/
def scanReplaceGo (step : List Char → Option (List Char × List Char)) :
    Nat → List Char → List Char
  | 0, l => l
  | _ + 1, [] => []
  | fuel + 1, c :: rest =>
    match step (c :: rest) with
    | some (rep, after) => rep ++ scanReplaceGo step fuel after
    | none => c :: scanReplaceGo step fuel rest

/-- Global regex replacement over a whole string. -/
def scanReplace (step : List Char → Option (List Char × List Char))
    (l : List Char) : List Char :=
  scanReplaceGo step l.length l

/-- Split at the earliest occurrence of the literal pattern `pat`
(returning the part before and the part after the occurrence).  With
`stopNl` set the search fails upon reaching a newline first, which
models a lazy `(.*?)` middle, whose dot cannot match a newline. -/
def splitAtSub (pat : List Char) (stopNl : Bool) : List Char → Option (List Char × List Char)
  | [] => none
  | c :: rest =>
    if pat.isPrefixOf (c :: rest) then
      some ([], (c :: rest).drop pat.length)
    else if stopNl && c = '\n' then
      none
    else
      match splitAtSub pat stopNl rest with
      | some (b, a) => some (c :: b, a)
      | none => none

/-- Split at the last occurrence of `pat` (for the greedy `.*` of the
list-wrapping replace).  Fueled for structural recursion; fuel equal to
the input length suffices since each nested search strictly advances. -/
def lastSplitGo (pat : List Char) : Nat → List Char → Option (List Char × List Char)
  | 0, _ => none
  | fuel + 1, l =>
    match splitAtSub pat false l with
    | none => none
    | some (b, a) =>
      match lastSplitGo pat fuel a with
      | none => some (b, a)
      | some (b2, a2) => some (b ++ pat ++ b2, a2)

/-- Split at the last occurrence of `pat`. -/
def lastSplit (pat : List Char) (l : List Char) : Option (List Char × List Char) :=
  lastSplitGo pat l.length l

/-- Split a string into its lines (separator `\n`), apply `f` to each
line and rejoin: the effect of a `gim`-flagged regex anchored by
`^...$`, whose dot cannot cross a newline. -/
def mapLines (f : List Char → List Char) (l : List Char) : List Char :=
  List.intercalate ['\n'] ((l.splitOn '\n').map f)

/-- Heading replaces, lines 372-375: `^#### (.*$)` then `^### (.*$)` then
`^## (.*$)` then `^# (.*$)`, each `gim`.  The four passes are disjoint
on any line (a rewritten line starts with `<`), so they are combined
into one per-line case split, checked longest prefix first exactly as
the source orders them. -/
def headingLine (line : List Char) : List Char :=
  if "#### ".data.isPrefixOf line then "<h4>".data ++ line.drop 5 ++ "</h4>".data
  else if "### ".data.isPrefixOf line then "<h3>".data ++ line.drop 4 ++ "</h3>".data
  else if "## ".data.isPrefixOf line then "<h2>".data ++ line.drop 3 ++ "</h2>".data
  else if "# ".data.isPrefixOf line then "<h1>".data ++ line.drop 2 ++ "</h1>".data
  else line

/-- Bold replace, line 377: `\*\*(.*?)\*\*` (gim). -/
def boldStep (l : List Char) : Option (List Char × List Char) :=
  match l with
  | '*' :: '*' :: rest =>
    match splitAtSub ['*', '*'] true rest with
    | some (mid, after) => some ("<strong>".data ++ mid ++ "</strong>".data, after)
    | none => none
  | _ => none

/-- Italic replace, line 378: `\*(.*?)\*` (gim). -/
def italicStep (l : List Char) : Option (List Char × List Char) :=
  match l with
  | '*' :: rest =>
    match splitAtSub ['*'] true rest with
    | some (mid, after) => some ("<em>".data ++ mid ++ "</em>".data, after)
    | none => none
  | _ => none

/-- Bullet-item replace, line 380: `^\* (.+)$` (gim) — the rest of the
line must be non-empty. -/
def bulletLine (line : List Char) : List Char :=
  match line with
  | '*' :: ' ' :: c :: rest => "<li>".data ++ (c :: rest) ++ "</li>".data
  | _ => line

/-- List wrap, line 381: `(<li>.*<\/li>)/s`, not global: a single
replacement from the first `<li>` to the last `</li>` (greedy dot-all
middle), wrapped in `<ul>...</ul>`. -/
def liWrapOnce (l : List Char) : List Char :=
  match splitAtSub "<li>".data false l with
  | none => l
  | some (before, afterOpen) =>
    match lastSplit "</li>".data afterOpen with
    | none => l
    | some (mid, after) =>
      before ++ "<ul>".data ++ "<li>".data ++ mid ++ "</li>".data ++ "</ul>".data ++ after

/-- Image replace, line 383: `!\[([^\]]*)\]\(([^)]+)\)` (gim). -/
def imageStep (l : List Char) : Option (List Char × List Char) :=
  match l with
  | '!' :: '[' :: rest =>
    match splitAtSub [']'] false rest with
    | some (alt, afterBr) =>
      match afterBr with
      | '(' :: rest2 =>
        match splitAtSub [')'] false rest2 with
        | some (url, after2) =>
          if url = [] then none
          else some ("<img src=\"".data ++ url ++ "\" alt=\"".data ++ alt ++ "\" />".data, after2)
        | none => none
      | _ => none
    | none => none
  | _ => none

/-- Link replace, line 385: `\[([^\]]+)\]\(([^)]+)\)` (gim) — link text
must be non-empty. -/
def linkStep (l : List Char) : Option (List Char × List Char) :=
  match l with
  | '[' :: rest =>
    match splitAtSub [']'] false rest with
    | some (txt, afterBr) =>
      if txt = [] then none
      else
        match afterBr with
        | '(' :: rest2 =>
          match splitAtSub [')'] false rest2 with
          | some (url, after2) =>
            if url = [] then none
            else some ("<a href=\"".data ++ url ++
              "\" target=\"_blank\" rel=\"noopener noreferrer\">".data ++ txt ++ "</a>".data, after2)
          | none => none
        | _ => none
    | none => none
  | _ => none

/-- Paragraph-break replace, line 387: `\n\n` → `</p><p>` (global). -/
def parBreakStep (l : List Char) : Option (List Char × List Char) :=
  match l with
  | '\n' :: '\n' :: rest => some ("</p><p>".data, rest)
  | _ => none

/-- Line-break replace, line 388: `\n` → `<br>` (global). -/
def brStep (l : List Char) : Option (List Char × List Char) :=
  match l with
  | '\n' :: rest => some ("<br>".data, rest)
  | _ => none

/-- List-unwrap replace, line 391: `<p>(<ul>.*?<\/ul>)<\/p>` (gs): a
lazy dot-all middle, so the match closes at the earliest
`</ul></p>`. -/
def ulFixStep (l : List Char) : Option (List Char × List Char) :=
  match l with
  | '<' :: 'p' :: '>' :: '<' :: 'u' :: 'l' :: '>' :: rest =>
    match splitAtSub "</ul></p>".data false rest with
    | some (mid, after) => some ("<ul>".data ++ mid ++ "</ul>".data, after)
    | none => none
  | _ => none

/-- Horizontal-rule replace, line 394: `^---$` (gim) — a line consisting
exactly of three dashes. -/
def hrLine (line : List Char) : List Char :=
  if line = "---".data then "<hr>".data else line

/-- The markdown heuristic of lines 365-369: content containing `#`, `*`
or `[` is treated as markdown. -/
def mdDetect (l : List Char) : Bool :=
  l.contains '#' || l.contains '*' || l.contains '['

/-- The full in-order conversion chain of lines 370-398, followed by the
paragraph wrap of lines 396-398 (`startsWith("<")`). -/
def convertMarkdown (l : List Char) : List Char :=
  let s1 := mapLines headingLine l
  let s2 := scanReplace boldStep s1
  let s3 := scanReplace italicStep s2
  let s4 := mapLines bulletLine s3
  let s5 := liWrapOnce s4
  let s6 := scanReplace imageStep s5
  let s7 := scanReplace linkStep s6
  let s8 := scanReplace parBreakStep s7
  let s9 := scanReplace brStep s8
  let s10 := scanReplace ulFixStep s9
  let s11 := mapLines hrLine s10
  if s11.head? = some '<' then s11 else "<p>".data ++ s11 ++ "</p>".data

/-- The markdown normalizer of `publishToShopify`, lines 355-399: strip
front matter from `content || ""`; if the result is empty or
whitespace substitute `<p>{title || "Untitled"}</p>`; then convert when
the heuristic fires. -/
def normalizeContent (content : Option String) (title : String) : String :=
  let cc1 := stripFrontMatter (content.getD "").data
  let cc2 :=
    if cc1.all isWs then
      "<p>".data ++ (if title = "" then "Untitled" else title).data ++ "</p>".data
    else cc1
  String.mk (if mdDetect cc2 then convertMarkdown cc2 else cc2)

/-! Data model: the `OutblogPost` row of the SQL migration
(`ShopSettings` / `OutblogPost` tables).  Timestamps are naturals. -/

/-- One stored blog post (`OutblogPost` row).  `status` defaults to
`"draft"` and `createdAt` to the insertion time, per the migration
defaults. -/
structure Post where
  id : String
  externalId : Option String
  slug : String
  title : String
  content : Option String
  metaDescription : Option String
  featuredImage : Option String
  status : String
  categories : Option String
  tags : Option String
  shopifyArticleId : Option String
  createdAt : Nat
  updatedAt : Nat
deriving DecidableEq, Repr

/-- The upsert payload built by the sync loop (`fetchBlogs`, lines
149-158): exactly these eight keys appear in the object literal;
`title` is defaulted to `"Untitled"` and `categories`/`tags` are
`JSON.stringify` results, hence always strings, while the other
optional fields may be `undefined`. -/
structure SyncPayload where
  externalId : Option String
  slug : String
  title : String
  content : Option String
  metaDescription : Option String
  featuredImage : Option String
  categories : String
  tags : String
deriving DecidableEq, Repr

/-- Prisma update semantics for an optional field: a field whose value
is `undefined` is skipped (Prisma Client ignores undefined fields in
`update`/`updateMany` data), so the stored value survives; a defined
value overwrites. -/
def ovr : Option String → Option String → Option String
  | some v, _ => some v
  | none, old => old

/-- `DatabaseStore.upsertBlogPost` (database.server, lines 69-86):
`prisma.outblogPost.upsert` keyed on the unique `(shopSettingsId, slug)`
index.  On update, the payload fields overwrite (undefined ones are
skipped by Prisma); `status`, `shopifyArticleId` and `createdAt` are not
in the payload and survive.  On create, the migration defaults apply:
`status = "draft"`, `createdAt = CURRENT_TIMESTAMP`; `newId` stands for
the generated primary key and `now` for the current time. -/
def upsertBlogPost (posts : List Post) (d : SyncPayload) (newId : String) (now : Nat) :
    List Post :=
  if posts.any (fun p => p.slug = d.slug) then
    posts.map (fun p =>
      if p.slug = d.slug then
        { p with
          externalId := ovr d.externalId p.externalId
          slug := d.slug
          title := d.title
          content := ovr d.content p.content
          metaDescription := ovr d.metaDescription p.metaDescription
          featuredImage := ovr d.featuredImage p.featuredImage
          categories := some d.categories
          tags := some d.tags
          updatedAt := now }
      else p)
  else
    posts ++ [{ id := newId
                externalId := d.externalId
                slug := d.slug
                title := d.title
                content := d.content
                metaDescription := d.metaDescription
                featuredImage := d.featuredImage
                status := "draft"
                categories := some d.categories
                tags := some d.tags
                shopifyArticleId := none
                createdAt := now
                updatedAt := now }]

/-- `MemoryStore.upsertBlogPost` (memory.server, lines 76-106): the dev
fallback builds a brand-new record (`createdAt: data.createdAt || now`,
`status: data.status || "draft"`, `shopifyArticleId:
data.shopifyArticleId`) and replaces the existing one wholesale; the
sync payload carries none of those three fields, so they are reset
rather than preserved; the new object's `id` is `data.id ||
randomUUID()`, and the sync payload has no `id`, so `freshId` stands
for the generated one. -/
def memUpsertBlogPost (posts : List Post) (d : SyncPayload) (freshId : String) (now : Nat) :
    List Post :=
  let newPost : Post :=
    { id := freshId
      externalId := d.externalId
      slug := d.slug
      title := d.title
      content := d.content
      metaDescription := d.metaDescription
      featuredImage := d.featuredImage
      status := "draft"
      categories := some d.categories
      tags := some d.tags
      shopifyArticleId := none
      createdAt := now
      updatedAt := now }
  if posts.any (fun p => p.slug = d.slug) then
    posts.map (fun p => if p.slug = d.slug then newPost else p)
  else
    posts ++ [newPost]

/-- `DatabaseStore.updateBlogPost` (database.server, lines 100-111) as
invoked by both publish paths with data `{shopifyArticleId, status}`:
Prisma skips `shopifyArticleId` when it is undefined (`ovr`), and always
sets `status`. -/
def updateBlogPost (posts : List Post) (bid : String) (aid : Option String)
    (st : String) (now : Nat) : List Post :=
  posts.map (fun p =>
    if p.id = bid then
      { p with shopifyArticleId := ovr aid p.shopifyArticleId, status := st, updatedAt := now }
    else p)

/-- `DatabaseStore.updateManyBlogPosts` (database.server, lines 113-124)
as invoked by `checkLiveStatus` with data `{shopifyArticleId: undefined,
status: "draft"}`: Prisma ignores the undefined `shopifyArticleId`, so
only `status` is written. -/
def updateManyDemote (posts : List Post) (ids : List String) (now : Nat) : List Post :=
  posts.map (fun p =>
    if ids.contains p.id then
      { p with status := "draft", updatedAt := now }
    else p)

/-- `MemoryStore.updateManyBlogPosts` (memory.server, lines 132-148) on
the same data: the JS spread `{...post, ...data}` with an explicitly
present `shopifyArticleId: undefined` key does overwrite, so the dev
store clears the article id as well as setting the status. -/
def memUpdateManyDemote (posts : List Post) (ids : List String) (now : Nat) : List Post :=
  posts.map (fun p =>
    if ids.contains p.id then
      { p with shopifyArticleId := none, status := "draft", updatedAt := now }
    else p)

/-! The `checkLiveStatus` action, lines 202-282. -/

/-- Chunking into batches of `n` (the loop of lines 220-222 slices the
filtered list in steps of `batchSize = 50`).  Fueled for structural
recursion; fuel equal to the list length suffices for any `n ≥ 1`. -/
def chunksGo (n : Nat) : Nat → List α → List (List α)
  | 0, _ => []
  | _ + 1, [] => []
  | fuel + 1, c :: rest => (c :: rest).take n :: chunksGo n fuel (rest.drop (n - 1))

/-- The batches of size 50 used by `checkLiveStatus`. -/
def chunks50 (l : List α) : List (List α) :=
  chunksGo 50 l.length l

/-- Posts with a truthy `shopifyArticleId` (line 210). -/
def blogsWithArticleId (posts : List Post) : List Post :=
  posts.filter (fun b => truthyOpt b.shopifyArticleId)

/-- The per-batch id lists sent to the `nodes` GraphQL query (lines
222-239). -/
def checkBatches (posts : List Post) : List (List String) :=
  (chunks50 (blogsWithArticleId posts)).map
    (fun batch => batch.map (fun b => b.shopifyArticleId.getD ""))

/-- Shopify's answer is modelled by the oracle `live`: a queried id is
echoed back as an existing `Article` node iff `live id` (the
`publishedAt` field is ignored, lines 251-256).  The loop collects the
local ids of the posts in each batch whose article id was not echoed
back (lines 258-263). -/
def checkMissingIds (posts : List Post) (live : String → Bool) : List String :=
  ((chunks50 (blogsWithArticleId posts)).map
    (fun batch =>
      (batch.filter (fun b => !live (b.shopifyArticleId.getD ""))).map (fun b => b.id))).flatten

/-- The store effect of `checkLiveStatus`: one `updateManyBlogPosts`
call with `{shopifyArticleId: undefined, status: "draft"}` when any ids
are missing (lines 266-271), nothing otherwise. -/
def checkLiveStatusRun (posts : List Post) (live : String → Bool) (now : Nat) : List Post :=
  let missing := checkMissingIds posts live
  if missing.isEmpty then posts else updateManyDemote posts missing now

/-! The article-creation requests of the two publish paths. -/

/-- The optional image attached to an article (lines 408-421). -/
structure ArticleImage where
  altText : String
  url : String
deriving DecidableEq, Repr

/-- The `ArticleCreateInput` fields populated by the two publish
actions. -/
structure ArticleInput where
  blogId : String
  title : String
  body : String
  handle : String
  isPublished : Bool
  authorName : Option String
  image : Option ArticleImage
deriving DecidableEq, Repr

/-- Prefix test on strings. -/
def startsWithStr (pat s : String) : Bool :=
  pat.data.isPrefixOf s.data

/-- Image construction of lines 408-421: a truthy `featuredImage` that
parses as an absolute http/https URL yields an image whose alt text is
the title clipped to 125 characters (`"Blog post image"` when the title
is empty); anything else is silently dropped.  `new URL` validity is
approximated by the scheme check — no claim exercises URL corner
cases. -/
def articleImageOf (post : Post) : Option ArticleImage :=
  match post.featuredImage with
  | none => none
  | some u =>
    if u ≠ "" && (startsWithStr "http://" u || startsWithStr "https://" u) then
      some { altText := if post.title = "" then "Blog post image"
                        else String.mk (post.title.data.take 125)
             url := u }
    else none

set_option linter.unusedVariables false in
/-- The article-creation request submitted by `publishToShopify` (lines
464-477).  `isPublished` is the literal `true` of line 471;
`postAsDraft` is in scope (the log of lines 423-437 even computes
`!postAsDraft` for it) but the request does not consult it. -/
def publishOneArticleInput (outblogBlogId : String) (post : Post) (postAsDraft : Bool) :
    ArticleInput :=
  { blogId := outblogBlogId
    title := post.title
    body := normalizeContent post.content post.title
    handle := articleHandle post.slug post.title
    isPublished := true
    authorName := some "Outblog AI"
    image := articleImageOf post }

/-- The article-creation request submitted per post by
`publishAllToShopify` (lines 645-655): front matter is stripped but no
markdown conversion runs, the handle is the stored slug, no author or
image is attached, and `isPublished` is `!postAsDraft`. -/
def publishAllArticleInput (outblogBlogId : String) (post : Post) (postAsDraft : Bool) :
    ArticleInput :=
  { blogId := outblogBlogId
    title := post.title
    body := stripContent post.content
    handle := post.slug
    isPublished := !postAsDraft
    authorName := none
    image := none }

/-- The local status recorded after a successful publish, lines 517 and
663 (identical expressions): `postAsDraft ? "draft" : "published"`. -/
def publishLocalStatus (postAsDraft : Bool) : String :=
  if postAsDraft then "draft" else "published"

/-! The ensure-outblog-container steps, `publishToShopify` lines 300-353
and `publishAllToShopify` lines 574-622. -/

/-- A blog node as selected by the `getBlogs` query. -/
structure BlogNode where
  id : String
  title : String
  handle : String
deriving DecidableEq, Repr

/-- A GraphQL user error `{field, message}`. -/
structure UserError where
  field : Option String
  message : String
deriving DecidableEq, Repr

/-- The `BlogCreateInput` variables of the `blogCreate` mutation. -/
structure BlogCreateInput where
  title : String
  handle : Option String
deriving DecidableEq, Repr

/-- The `blogCreate` response payload. -/
structure BlogCreatePayload where
  blog : Option BlogNode
  userErrors : List UserError
deriving DecidableEq, Repr

deriving instance DecidableEq for Except

/-- Selection of the outblog container among the queried blogs — the
identical `find` of lines 317-319 and 591-593: compare `handle` with
`"outblog"`. -/
def findOutblog (edges : List BlogNode) : Option BlogNode :=
  edges.find? (fun n => n.handle == "outblog")

/-- Container-ensure step of `publishToShopify`: when the container is
absent it is created with title `"Outblog"` and handle `"outblog"`
(lines 339-344), and `blogCreate.userErrors` abort the action with the
first error message (lines 349-351).  The result pairs the creation
request issued (if any) with the container or error. -/
def ensureOutblogOne (edges : List BlogNode) (createResp : BlogCreatePayload) :
    Option BlogCreateInput × Except String (Option BlogNode) :=
  match findOutblog edges with
  | some b => (none, .ok (some b))
  | none =>
    (some { title := "Outblog", handle := some "outblog" },
     match createResp.userErrors with
     | e :: _ => .error e.message
     | [] => .ok createResp.blog)

/-- Container-ensure step of `publishAllToShopify`: creation sends only
the title `"Outblog"` — no handle (lines 611-616) — and the response's
`userErrors` are never inspected (lines 620-621). -/
def ensureOutblogAll (edges : List BlogNode) (createResp : BlogCreatePayload) :
    Option BlogCreateInput × Except String (Option BlogNode) :=
  match findOutblog edges with
  | some b => (none, .ok (some b))
  | none =>
    (some { title := "Outblog", handle := none }, .ok createResp.blog)

/-! The bulk publish loop, `publishAllToShopify` lines 624-669. -/

/-- The article object selected by the `articleCreate` mutation (only
its id is consumed). -/
structure ArticleNode where
  id : String
deriving DecidableEq, Repr

/-- The `articleCreate` response payload. -/
structure ArticleCreatePayload where
  article : Option ArticleNode
  userErrors : List UserError
deriving DecidableEq, Repr

/-- The guard of line 659:
`!createArticleData.data?.articleCreate?.userErrors?.length`.  A
response whose envelope lacks `data.articleCreate` (modelled `none`)
makes the optional chain undefined, which is falsy — so a malformed or
empty response passes the guard. -/
def hasUserErrors : Option ArticleCreatePayload → Bool
  | none => false
  | some payload => !payload.userErrors.isEmpty

/-- The loop body of lines 626-667 over the zipped (post, response)
pairs: a response with user errors is skipped silently; any other
response updates the post (`shopifyArticleId` from the possibly absent
article id — skipped by Prisma when undefined — and the local status)
and increments the published count. -/
def publishAllLoop (pad : Bool) (now : Nat) :
    List (Post × Option ArticleCreatePayload) → List Post → Nat → List Post × Nat
  | [], store, count => (store, count)
  | (post, resp) :: rest, store, count =>
    if hasUserErrors resp then
      publishAllLoop pad now rest store count
    else
      publishAllLoop pad now rest
        (updateBlogPost store post.id ((resp.bind (fun r => r.article)).map (fun a => a.id))
          (publishLocalStatus pad) now)
        (count + 1)

/-- The `publishAllToShopify` store effect and aggregate count: the loop
runs over the posts with no truthy `shopifyArticleId` (line 625), one
modelled response per attempted post. -/
def publishAllRun (pad : Bool) (posts : List Post)
    (resps : List (Option ArticleCreatePayload)) (now : Nat) : List Post × Nat :=
  publishAllLoop pad now ((posts.filter (fun b => !truthyOpt b.shopifyArticleId)).zip resps) posts 0

/-! The cron route, `api.cron` (loader lines 9-22, action lines 24-37). -/

/-- The JS values that take part in the cron secret comparison. -/
inductive JSVal
  | undef
  | null
  | str (s : String)
deriving DecidableEq, Repr

/-- JS strict equality `===` restricted to these values: values of
different types are never strictly equal; strings compare by value. -/
def jsStrictEq : JSVal → JSVal → Bool
  | .undef, .undef => true
  | .null, .null => true
  | .str a, .str b => a == b
  | _, _ => false

/-- `process.env.CRON_SECRET`: `undefined` when the variable is unset. -/
def envVal : Option String → JSVal
  | none => .undef
  | some s => .str s

/-- `url.searchParams.get("secret")` (loader) and
`formData.get("secret")` (action): `null` when the parameter is absent,
else a string. -/
def paramVal : Option String → JSVal
  | none => .null
  | some s => .str s

/-- The cron loader: compare the supplied secret against the
environment value and answer 401 on mismatch, else the memory-storage
notice (HTTP 200).  Neither branch performs any store operation, so the
store is returned unchanged. -/
def cronLoader (cronSecretEnv : Option String) (secretParam : Option String)
    (store : σ) : Nat × σ :=
  if !jsStrictEq (paramVal secretParam) (envVal cronSecretEnv) then (401, store)
  else (200, store)

/-- The cron action: identical comparison on the form field `secret`. -/
def cronAction (cronSecretEnv : Option String) (secretForm : Option String)
    (store : σ) : Nat × σ :=
  if !jsStrictEq (paramVal secretForm) (envVal cronSecretEnv) then (401, store)
  else (200, store)

/-! Reachability of one shop's post collection through the
store-writing operations of the route. -/

/-- States reachable from the empty collection through the sync upsert,
an accepted publish, and — when `recOk` is set — a reconciliation pass.
Both publish call sites update with the same data shape (lines 514-518
and 661-664).  `publishToShopify` only reaches its update after
checking that the response carried an article (lines 503-512), but
`publishAllToShopify` performs the update for any response without user
errors, passing `shopifyArticleId: undefined` when the article payload
is missing (lines 659-664), so the article id argument is an
`Option`. -/
inductive Reach (pad : Bool) (recOk : Bool) : List Post → Prop
  | init : Reach pad recOk []
  | sync (s : List Post) (d : SyncPayload) (newId : String) (now : Nat) :
      Reach pad recOk s → Reach pad recOk (upsertBlogPost s d newId now)
  | publish (s : List Post) (bid : String) (aid : Option String) (now : Nat) :
      Reach pad recOk s →
      Reach pad recOk (updateBlogPost s bid aid (publishLocalStatus pad) now)
  | reconcile (s : List Post) (live : String → Bool) (now : Nat) :
      recOk = true → Reach pad recOk s →
      Reach pad recOk (checkLiveStatusRun s live now)

/-- Substring test (used only in theorem statements). -/
def containsSub (pat : List Char) : List Char → Bool
  | [] => pat.isEmpty
  | c :: rest => pat.isPrefixOf (c :: rest) || containsSub pat rest

/-- Substring test on strings. -/
def strContains (s pat : String) : Bool :=
  containsSub pat.data s.data

/-! Concrete fixtures shared by the concrete evaluations below. -/

/-- A concrete stored post (never yet published). -/
def samplePost : Post :=
  { id := "post-1"
    externalId := some "ext-1"
    slug := "hello-world"
    title := "Hello World!"
    content := some "# Title\n\nBody **bold**"
    metaDescription := some "m"
    featuredImage := none
    status := "draft"
    categories := some "[]"
    tags := some "[]"
    shopifyArticleId := none
    createdAt := 0
    updatedAt := 0 }

/-- A concrete published post family for the live-status check. -/
def checkPostAt (i : Nat) : Post :=
  { id := "p" ++ toString i
    externalId := none
    slug := "s" ++ toString i
    title := "T"
    content := none
    metaDescription := none
    featuredImage := none
    status := "published"
    categories := none
    tags := none
    shopifyArticleId := some ("gid" ++ toString i)
    createdAt := 0
    updatedAt := 0 }

/-- Sixty published posts, the batch-size scenario of the claim. -/
def checkPosts60 : List Post :=
  (List.range 60).map checkPostAt

/-- A concrete unpublished post family for the bulk publish. -/
def unpubPost (i : Nat) : Post :=
  { id := "q" ++ toString i
    externalId := none
    slug := "u" ++ toString i
    title := "U"
    content := some "body"
    metaDescription := none
    featuredImage := none
    status := "draft"
    categories := none
    tags := none
    shopifyArticleId := none
    createdAt := 0
    updatedAt := 0 }

/-- A well-formed `articleCreate` response carrying an article id. -/
def goodResp (i : Nat) : Option ArticleCreatePayload :=
  some { article := some { id := "a" ++ toString i }, userErrors := [] }

/-- A destination validation-error response. -/
def errResp : Option ArticleCreatePayload :=
  some { article := none, userErrors := [{ field := some "title", message := "cannot be blank" }] }

/-- A `blogCreate` response reporting a user error. -/
def blogCreateErrResp : BlogCreatePayload :=
  { blog := none, userErrors := [{ field := none, message := "handle taken" }] }

/-!  ## Claims  -/

/-- C1, counterexample.  The claim states that the `isPublished` field
submitted by `publishToShopify` is `false` whenever `postAsDraft` is
true.  With `postAsDraft = true` the submitted request still carries
`isPublished = true` (source line 471), while the locally recorded
status for the same publish is `"draft"`. -/
theorem c1_counterexample :
    (publishOneArticleInput "gid-blog-1" samplePost true).isPublished = true ∧
    publishLocalStatus true = "draft" :=
  ⟨rfl, rfl⟩

/-- C1, amended.  `publishToShopify` submits `isPublished: true`
unconditionally, for every post and every `postAsDraft` value; only the
bulk path `publishAllToShopify` ties `isPublished` to `!postAsDraft`;
the local status recorded after either publish is `"draft"` iff
`postAsDraft`. -/
theorem c1_theorem (outblogBlogId : String) (post : Post) (postAsDraft : Bool) :
    (publishOneArticleInput outblogBlogId post postAsDraft).isPublished = true ∧
    (publishAllArticleInput outblogBlogId post postAsDraft).isPublished = !postAsDraft ∧
    publishLocalStatus true = "draft" ∧ publishLocalStatus false = "published" :=
  ⟨rfl, rfl, rfl, rfl⟩

/-- C2.  Evaluation at the failing input (sixty published posts, the
destination reporting every article gone): the ids are queried in two
batches of 50 and 10 exactly as claimed, but every demoted post
finishes with `status = "draft"` while its `shopifyArticleId` is still
present — the `updateManyBlogPosts` call passes `shopifyArticleId:
undefined`, which Prisma ignores, so the column is never cleared.  This
contradicts the claim (and the route's own success message and the
in-memory twin, see `memDemotionClears`). -/
theorem c2_theorem :
    (checkBatches checkPosts60).map List.length = [50, 10] ∧
    ((checkLiveStatusRun checkPosts60 (fun _ => false) 7).all
      (fun p => p.status == "draft" && p.shopifyArticleId.isSome)) = true := by
  exact ⟨by decide, by decide⟩

/-- The in-memory twin `MemoryStore.updateManyBlogPosts`, run on the
identical data, does clear the article ids — evidence that clearing is
the intended behaviour and the database path a slip. -/
theorem memDemotionClears :
    ((memUpdateManyDemote checkPosts60 (checkMissingIds checkPosts60 (fun _ => false)) 7).all
      (fun p => p.status == "draft" && p.shopifyArticleId.isNone)) = true := by
  decide

/-- Counting the complement of a Boolean predicate. -/
theorem countP_not_eq (l : List α) (p : α → Bool) :
    l.countP (fun a => !p a) = l.length - l.countP p := by
  induction l with
  | nil => simp
  | cons a l ih =>
    have hle := List.countP_le_length p (l := l)
    by_cases h : p a = true
    · simp [List.countP_cons, h, ih]
    · simp [List.countP_cons, h, ih]
      omega

/-- The bulk-publish loop increments its count exactly on the responses
without user errors. -/
theorem publishAllLoop_count (pad : Bool) (now : Nat)
    (pairs : List (Post × Option ArticleCreatePayload)) (store : List Post) (count : Nat) :
    (publishAllLoop pad now pairs store count).2 =
      count + pairs.countP (fun pr => !hasUserErrors pr.2) := by
  induction pairs generalizing store count with
  | nil => simp [publishAllLoop]
  | cons pr rest ih =>
    obtain ⟨post, resp⟩ := pr
    by_cases h : hasUserErrors resp = true
    · simp [publishAllLoop, h, ih, List.countP_cons]
    · simp [publishAllLoop, h, ih, List.countP_cons]
      omega

/-- C6, counterexample.  The claim states that a post whose creation
response is malformed or empty is not counted as published, so three
unpublished posts with one empty response should yield a count of 2.
The run counts all three — the guard of line 659 only skips responses
that explicitly carry user errors — and the post with the empty
response is even marked with the local publish status while carrying no
article id. -/
theorem c6_counterexample :
    (publishAllRun false [unpubPost 1, unpubPost 2, unpubPost 3]
      [goodResp 1, none, goodResp 3] 5).2 = 3 ∧
    (((publishAllRun false [unpubPost 1, unpubPost 2, unpubPost 3]
        [goodResp 1, none, goodResp 3] 5).1.filter (fun p => p.id == "q2")).map
      (fun p => (p.status, p.shopifyArticleId))) = [("published", none)] := by
  exact ⟨by decide, by decide⟩

/-- C6, amended.  Only destination-reported validation errors are
swallowed without counting; a malformed or empty response is counted as
published (and leaves the post without an article id).  The remaining
posts are always attempted, and the aggregate count equals the number
of attempted posts minus the number of user-error responses — in
particular 3 unpublished posts with one validation error yield 2. -/
theorem c6_theorem (pad : Bool) (posts : List Post)
    (resps : List (Option ArticleCreatePayload)) (now : Nat)
    (h : resps.length = (posts.filter (fun b => !truthyOpt b.shopifyArticleId)).length) :
    (publishAllRun pad posts resps now).2 = resps.length - resps.countP hasUserErrors := by
  unfold publishAllRun
  rw [publishAllLoop_count, Nat.zero_add]
  have hsnd : ((posts.filter (fun b => !truthyOpt b.shopifyArticleId)).zip resps).map Prod.snd
      = resps :=
    List.map_snd_zip _ _ (Nat.le_of_eq h)
  have hmap := List.countP_map (fun r => !hasUserErrors r) Prod.snd
    ((posts.filter (fun b => !truthyOpt b.shopifyArticleId)).zip resps)
  rw [hsnd] at hmap
  have hmap2 : List.countP (fun pr : Post × Option ArticleCreatePayload => !hasUserErrors pr.2)
      ((posts.filter (fun b => !truthyOpt b.shopifyArticleId)).zip resps)
      = List.countP (fun r => !hasUserErrors r) resps := hmap.symm
  rw [hmap2, countP_not_eq]

/-- C6, witness: three unpublished posts, one destination validation
error, published count 2 via the amended theorem. -/
theorem c6_witness :
    ([goodResp 1, errResp, goodResp 3].length =
      ([unpubPost 1, unpubPost 2, unpubPost 3].filter
        (fun b => !truthyOpt b.shopifyArticleId)).length) ∧
    (publishAllRun false [unpubPost 1, unpubPost 2, unpubPost 3]
      [goodResp 1, errResp, goodResp 3] 5).2 = 2 :=
  ⟨by decide,
   (c6_theorem false [unpubPost 1, unpubPost 2, unpubPost 3]
     [goodResp 1, errResp, goodResp 3] 5 (by decide)).trans (by decide)⟩

set_option linter.unusedVariables false in
/-- C3.  Upserting the same slug twice (as the sync loop does) with
different content leaves the stored record carrying every field of the
second payload, while `createdAt` keeps the value of the first insert
(`t1`): the update data carries no `createdAt`, and Prisma skips absent
fields, so the column keeps its insert-time default.  The hypotheses
require the second payload to carry all its optional fields, exactly as
a sync payload with full source data does. -/
theorem c3_theorem (p1 p2 : SyncPayload) (id1 id2 : String) (t1 t2 : Nat)
    (e c m f : String)
    (hslug : p1.slug = p2.slug)
    (hcontent : p1.content ≠ p2.content)
    (he : p2.externalId = some e) (hc : p2.content = some c)
    (hm : p2.metaDescription = some m) (hf : p2.featuredImage = some f) :
    upsertBlogPost (upsertBlogPost [] p1 id1 t1) p2 id2 t2 =
      [{ id := id1, externalId := some e, slug := p2.slug, title := p2.title,
         content := some c, metaDescription := some m, featuredImage := some f,
         status := "draft", categories := some p2.categories, tags := some p2.tags,
         shopifyArticleId := none, createdAt := t1, updatedAt := t2 }] := by
  simp [upsertBlogPost, hslug, ovr, he, hc, hm, hf]

/-- First concrete sync payload for the C3 witness. -/
def syncPayloadA : SyncPayload :=
  { externalId := some "e1", slug := "hello", title := "A", content := some "one"
    metaDescription := some "m1", featuredImage := some "f1"
    categories := "[]", tags := "[]" }

/-- Second concrete sync payload for the C3 witness (same slug,
different content). -/
def syncPayloadB : SyncPayload :=
  { externalId := some "e2", slug := "hello", title := "B", content := some "two"
    metaDescription := some "m2", featuredImage := some "f2"
    categories := "[\"x\"]", tags := "[\"y\"]" }

/-- C3, witness: the theorem applied to two concrete payloads; the
resulting record carries the second payload and `createdAt = 1`, the
first insert time. -/
theorem c3_witness :
    syncPayloadA.slug = syncPayloadB.slug ∧
    syncPayloadA.content ≠ syncPayloadB.content ∧
    upsertBlogPost (upsertBlogPost [] syncPayloadA "id1" 1) syncPayloadB "id2" 2 =
      [{ id := "id1", externalId := some "e2", slug := "hello", title := "B",
         content := some "two", metaDescription := some "m2", featuredImage := some "f2",
         status := "draft", categories := some "[\"x\"]", tags := some "[\"y\"]",
         shopifyArticleId := none, createdAt := 1, updatedAt := 2 }] :=
  ⟨rfl, by decide,
   c3_theorem syncPayloadA syncPayloadB "id1" "id2" 1 2 "e2" "two" "m2" "f2"
     rfl (by decide) rfl rfl rfl rfl⟩

/-- A concrete sync payload driving the reachable states below. -/
def c4Payload : SyncPayload :=
  { externalId := none, slug := "hello", title := "Hello", content := some "hi"
    metaDescription := none, featuredImage := none, categories := "[]", tags := "[]" }

/-- A state reached by syncing one post and publishing it with
`postAsDraft = true`. -/
def c4State : List Post :=
  updateBlogPost (upsertBlogPost [] c4Payload "b1" 0) "b1" (some "gid1") (publishLocalStatus true) 1

/-- A state reached by syncing one post and publishing it with
`postAsDraft = false`. -/
def c4GoodState : List Post :=
  updateBlogPost (upsertBlogPost [] c4Payload "b1" 0) "b1" (some "gid1") (publishLocalStatus false) 1

/-- A state reached by syncing one post and then a publish-all item
whose accepted response carried no article payload
(`postAsDraft = false`): the update stores the publish status with an
undefined article id, which Prisma skips. -/
def c4MalformedState : List Post :=
  updateBlogPost (upsertBlogPost [] c4Payload "b1" 0) "b1" none (publishLocalStatus false) 1

/-- C4, counterexample.  The claim states that every reachable state
satisfies `shopifyArticleId` present ⇔ status `"published"`, except
immediately after a reconciliation demotion.  With `postAsDraft = true`
a state reached by sync followed by one successful publish — no
reconciliation involved — carries the article id while its status is
`"draft"`, not `"published"`. -/
theorem c4_counterexample :
    Reach true false c4State ∧
    c4State.all (fun p => p.shopifyArticleId.isSome && p.status != "published") = true ∧
    c4State ≠ [] := by
  refine ⟨?_, by decide, by decide⟩
  exact Reach.publish _ "b1" (some "gid1") 1 (Reach.sync _ c4Payload "b1" 0 Reach.init)

/-- C4, amended.  Over the faithful step set — sync upserts, accepted
publishes whose article id may be absent (the `publishAllToShopify`
malformed-response path), and, when enabled, reconciliation passes —
only one direction of the claimed equivalence survives, and only while
no reconciliation runs: a post carrying `shopifyArticleId` has the
status of its latest publish, `"draft"` iff `postAsDraft`; in
particular with `postAsDraft` false an article id implies status
`"published"`.  The converse is refuted inside this theorem: a
publish-all item whose accepted response lacks the article payload
yields a reachable state (postAsDraft false, no reconciliation) whose
post has status `"published"` and no article id.  With `postAsDraft`
true a successful publish stores the id with status `"draft"` (the
counterexample), and a reconciliation demotion resets the status while
keeping the id (C2), so the equivalence fails there too. -/
theorem c4_theorem :
    (∀ (pad : Bool) (s : List Post), Reach pad false s →
      ∀ p ∈ s, p.shopifyArticleId ≠ none → p.status = publishLocalStatus pad) ∧
    (Reach false false c4MalformedState ∧
     c4MalformedState.all (fun p => p.status == "published" && p.shopifyArticleId.isNone) = true ∧
     c4MalformedState ≠ []) := by
  constructor
  · intro pad s hreach
    induction hreach with
    | init => intro p hp; simp at hp
    | sync s d newId now hs ih =>
      intro p hp hid
      unfold upsertBlogPost at hp
      split at hp
      · rw [List.mem_map] at hp
        obtain ⟨q, hq, rfl⟩ := hp
        by_cases hsl : q.slug = d.slug
        · rw [if_pos hsl] at hid ⊢
          exact ih q hq hid
        · rw [if_neg hsl] at hid ⊢
          exact ih q hq hid
      · rw [List.mem_append] at hp
        cases hp with
        | inl hmem => exact ih p hmem hid
        | inr hmem =>
          rw [List.mem_singleton] at hmem
          subst hmem
          exact absurd rfl hid
    | publish s bid aid now hs ih =>
      intro p hp hid
      unfold updateBlogPost at hp
      rw [List.mem_map] at hp
      obtain ⟨q, hq, rfl⟩ := hp
      by_cases hq2 : q.id = bid
      · rw [if_pos hq2]
      · rw [if_neg hq2] at hid ⊢
        exact ih q hq hid
    | reconcile s live now hrec hs ih =>
      exact absurd hrec (by decide)
  · refine ⟨?_, by decide, by decide⟩
    exact Reach.publish _ "b1" none 1 (Reach.sync _ c4Payload "b1" 0 Reach.init)

/-- C4, witness: the surviving direction applied to a concrete state
reached with `postAsDraft = false` through a well-formed publish. -/
theorem c4_witness :
    Reach false false c4GoodState ∧
    (∀ p ∈ c4GoodState, p.shopifyArticleId ≠ none → p.status = publishLocalStatus false) := by
  have hreach : Reach false false c4GoodState :=
    Reach.publish _ "b1" (some "gid1") 1 (Reach.sync _ c4Payload "b1" 0 Reach.init)
  exact ⟨hreach, c4_theorem.1 false c4GoodState hreach⟩

/-- C5, counterexample.  The claim states that the sync-time slug rule
derives `"hello-world"` from the title `"Hello World!"`; it actually
derives `"hello-world!"` — hyphen-for-whitespace only, the exclamation
mark survives. -/
theorem c5_counterexample :
    syncDeriveSlug "Hello World!" = "hello-world!" ∧
    ("hello-world!" : String) ≠ "hello-world" := by
  exact ⟨by decide, by decide⟩

/-- C5, amended.  On the literal title `"Hello World!"` the sync rule
(lower-case, whitespace runs to hyphens) derives `"hello-world!"`,
while the article-handle rule (lower-case, non-alphanumeric runs
collapsed, outer hyphens trimmed) derives `"hello-world"`; the two
derivations are distinct on this input. -/
theorem c5_theorem :
    syncDeriveSlug "Hello World!" = "hello-world!" ∧
    handleFromTitle "Hello World!" = "hello-world" ∧
    syncDeriveSlug "Hello World!" ≠ handleFromTitle "Hello World!" := by
  refine ⟨by decide, by decide, by decide⟩

/-- C7, counterexample.  The claim states the ensure-container steps of
the two publish paths behave identically in every starting state.  In
the state with no existing blogs and a creation response reporting a
user error, the two steps differ (different creation requests and
different error behaviour). -/
theorem c7_counterexample :
    ensureOutblogOne [] blogCreateErrResp ≠ ensureOutblogAll [] blogCreateErrResp := by
  decide

/-- C7, amended.  Both ensure steps share the query-and-find-by-handle
logic and agree whenever the `outblog` container already exists; when
it is absent they differ: `publishToShopify` creates with title
`"Outblog"` and handle `"outblog"` and surfaces the first
`blogCreate.userErrors` message as an error, while
`publishAllToShopify` creates with the title only (no handle) and
ignores creation errors. -/
theorem c7_theorem :
    (∀ (edges : List BlogNode) (r : BlogCreatePayload) (b : BlogNode),
      findOutblog edges = some b →
        ensureOutblogOne edges r = (none, .ok (some b)) ∧
        ensureOutblogAll edges r = (none, .ok (some b))) ∧
    (∀ (edges : List BlogNode) (r : BlogCreatePayload),
      findOutblog edges = none →
        (ensureOutblogOne edges r).1 = some { title := "Outblog", handle := some "outblog" } ∧
        (ensureOutblogAll edges r).1 = some { title := "Outblog", handle := none }) ∧
    (∀ (edges : List BlogNode) (r : BlogCreatePayload) (e : UserError) (tl : List UserError),
      findOutblog edges = none → r.userErrors = e :: tl →
        (ensureOutblogOne edges r).2 = .error e.message ∧
        (ensureOutblogAll edges r).2 = .ok r.blog) := by
  refine ⟨?_, ?_, ?_⟩
  · intro edges r b hf
    unfold ensureOutblogOne ensureOutblogAll
    rw [hf]
    exact ⟨rfl, rfl⟩
  · intro edges r hf
    unfold ensureOutblogOne ensureOutblogAll
    rw [hf]
    exact ⟨rfl, rfl⟩
  · intro edges r e tl hf he
    unfold ensureOutblogOne ensureOutblogAll
    rw [hf, he]
    exact ⟨rfl, rfl⟩

/-- C7, witness: the amended theorem applied in the concrete state with
no blogs and an erroring creation response. -/
theorem c7_witness :
    findOutblog [] = none ∧
    blogCreateErrResp.userErrors = { field := none, message := "handle taken" } :: [] ∧
    (ensureOutblogOne [] blogCreateErrResp).2 = .error "handle taken" ∧
    (ensureOutblogAll [] blogCreateErrResp).2 = .ok none := by
  have h := c7_theorem.2.2 [] blogCreateErrResp
    { field := none, message := "handle taken" } [] rfl rfl
  exact ⟨rfl, rfl, h.1, h.2⟩

/-- C8.  The markdown normalizer: the literal input
`"# Title\n\nBody **bold**"` yields output containing `<h1>Title</h1>`
and `<strong>bold</strong>`; and every content that is empty or
whitespace after front-matter stripping yields, with post title `"X"`,
exactly `"<p>X</p>"` (the substituted paragraph contains none of `#`,
`*`, `[`, so the conversion chain never runs on it). -/
theorem c8_theorem (content : String)
    (h : (stripFrontMatter content.data).all isWs = true) :
    (strContains (normalizeContent (some "# Title\n\nBody **bold**") "Any")
        "<h1>Title</h1>" = true ∧
     strContains (normalizeContent (some "# Title\n\nBody **bold**") "Any")
        "<strong>bold</strong>" = true) ∧
    normalizeContent (some content) "X" = "<p>X</p>" := by
  refine ⟨⟨by decide, by decide⟩, ?_⟩
  unfold normalizeContent
  simp only [Option.getD, h, if_true]
  decide

/-- C8, witness: a content consisting of a front-matter block and
trailing whitespace strips to whitespace, and the normalizer yields
exactly the title paragraph. -/
theorem c8_witness :
    (stripFrontMatter ("---\ntitle: hi\n---\n   ".data)).all isWs = true ∧
    normalizeContent (some "---\ntitle: hi\n---\n   ") "X" = "<p>X</p>" :=
  ⟨by decide, (c8_theorem ("---\ntitle: hi\n---\n   ") (by decide)).2⟩

/-- Head test: does the text begin with three dashes? -/
def startsDash3 : List Char → Bool
  | '-' :: '-' :: '-' :: _ => true
  | _ => false

/-- Scan: no line after the first begins with three dashes. -/
def noDashAfterNl : List Char → Bool
  | [] => true
  | c :: rest => (if c = '\n' then !startsDash3 rest else true) && noDashAfterNl rest

/-- The front-matter pattern cannot match at a position that does not
start with three dashes. -/
theorem matchFM_eq_none (l : List Char) (h : startsDash3 l = false) : matchFM l = none := by
  unfold matchFM
  split
  · simp [startsDash3] at h
  · rfl

/-- The multiline scan leaves the text unchanged when no line after the
first begins with three dashes. -/
theorem stripAfterNl_eq_self (l : List Char) (h : noDashAfterNl l = true) :
    stripAfterNl l = l := by
  induction l with
  | nil => rfl
  | cons ch rest ih =>
    rw [noDashAfterNl, Bool.and_eq_true] at h
    obtain ⟨h1, h2⟩ := h
    unfold stripAfterNl
    by_cases hc : ch = '\n'
    · rw [if_pos hc] at h1 ⊢
      have hd : startsDash3 rest = false := by simpa using h1
      simp only [matchFM_eq_none rest hd, ih h2]
    · rw [if_neg hc, ih h2]

/-- C9, counterexample.  The claim states that content which does not
begin with a front-matter block is left unchanged by the stripping
step.  `"hello\n--- a ---\nworld"` does not even begin with `---`, yet
the multiline-anchored regex matches the `--- a ---` block at the
second line start and removes it. -/
theorem c9_counterexample :
    startsWithStr "---" "hello\n--- a ---\nworld" = false ∧
    stripContent (some "hello\n--- a ---\nworld") = "hello\nworld" ∧
    ("hello\nworld" : String) ≠ "hello\n--- a ---\nworld" := by
  exact ⟨by decide, by decide, by decide⟩

/-- C9, amended.  The stripping step removes the first block delimited
by `---` starting at the beginning of ANY line (the regex anchor is
multiline), not only a leading one; content in which no line begins
with `---` is left unchanged. -/
theorem c9_theorem (s : String)
    (h : (!startsDash3 s.data && noDashAfterNl s.data) = true) :
    stripContent (some s) = s := by
  rw [Bool.and_eq_true] at h
  obtain ⟨h1, h2⟩ := h
  have hd : startsDash3 s.data = false := by simpa using h1
  unfold stripContent stripFrontMatter
  simp only [Option.getD, matchFM_eq_none s.data hd, stripAfterNl_eq_self s.data h2]

/-- C9, witness: a two-line text with no dash-led line is returned
unchanged. -/
theorem c9_witness :
    (!startsDash3 ("Hello\nplain text".data) && noDashAfterNl ("Hello\nplain text".data)) = true ∧
    stripContent (some "Hello\nplain text") = "Hello\nplain text" :=
  ⟨by decide, c9_theorem ("Hello\nplain text") (by decide)⟩

/-- C10.  When `CRON_SECRET` is unset every request to the cron
endpoint — loader (GET) or action (POST), with or without a supplied
secret — answers HTTP 401 and leaves the store untouched: the supplied
value is a string or `null` and is never strictly equal to
`undefined`. -/
theorem c10_theorem (σ : Type) (store : σ) (secret : Option String) :
    cronLoader none secret store = (401, store) ∧
    cronAction none secret store = (401, store) := by
  cases secret <;> exact ⟨rfl, rfl⟩

end Outblog
